import Mathlib

/-!
Shallow embedding of `src/function_app.py`: an HTTP handler (`weather_chat`)
that drives a two-call tool-using chat completion protocol, a mocked weather
tool (`get_weather`), and an LLM-as-judge evaluator
(`evaluate_response` / `evaluate_with_llm`).

Python values produced by `json.loads` / passed to `json.dumps` are modelled
by the inductive `Json`. Machine floats are modelled by `ℚ` (the only
numeric operations performed by the code on scores are comparisons and
`max`/`min` clamping, which agree with the rational model on all values the
claims quantify over). External effects (the chat completion endpoint,
`json.loads`, `float()` applied to a string, `uuid.uuid4().hex`, client
construction) are supplied by an `Env` record; an exception with message `m`
is modelled as `Except.error m`.
-/

namespace FunctionApp

/-- Python values that can result from `json.loads` (numbers collapsed to `ℚ`;
the int/float distinction only affects `repr` formatting, which no claim
depends on). -/
inductive Json where
  | null : Json
  | bool : Bool → Json
  | num : ℚ → Json
  | str : String → Json
  | arr : List Json → Json
  | obj : List (String × Json) → Json
  deriving Repr

mutual

/-- Structural equality test on `Json` values. -/
def Json.beq : Json → Json → Bool
  | .null, .null => true
  | .bool a, .bool b => a == b
  | .num a, .num b => a == b
  | .str a, .str b => a == b
  | .arr a, .arr b => Json.beqList a b
  | .obj a, .obj b => Json.beqKvs a b
  | _, _ => false

/-- Equality test on JSON arrays. -/
def Json.beqList : List Json → List Json → Bool
  | [], [] => true
  | a :: as, b :: bs => Json.beq a b && Json.beqList as bs
  | _, _ => false

/-- Equality test on JSON object fields. -/
def Json.beqKvs : List (String × Json) → List (String × Json) → Bool
  | [], [] => true
  | (k1, v1) :: as, (k2, v2) :: bs => k1 == k2 && Json.beq v1 v2 && Json.beqKvs as bs
  | _, _ => false

end

instance : BEq Json := ⟨Json.beq⟩

/-- Lowercase hex digit, as used by Python's `json` module for `\uXXXX`
escapes. -/
def hexDigit (n : Nat) : Char :=
  if n < 10 then Char.ofNat (48 + n) else Char.ofNat (87 + n)

/-- Four lowercase hex digits. -/
def hex4 (n : Nat) : String :=
  String.mk [hexDigit ((n / 4096) % 16), hexDigit ((n / 256) % 16),
             hexDigit ((n / 16) % 16), hexDigit (n % 16)]

/-- How Python's `json.dumps` (defaults: `ensure_ascii=True`) renders one
character inside a string literal: printable ASCII other than `"` and `\`
is kept, the named escapes are used for the usual control characters, and
everything else becomes `\uXXXX` (a surrogate pair above the BMP). -/
def escChar (c : Char) : String :=
  if c = '"' then "\\\""
  else if c = '\\' then "\\\\"
  else if c = '\n' then "\\n"
  else if c = '\t' then "\\t"
  else if c = '\r' then "\\r"
  else if c = Char.ofNat 8 then "\\b"
  else if c = Char.ofNat 12 then "\\f"
  else if 32 ≤ c.toNat ∧ c.toNat ≤ 126 then String.mk [c]
  else if c.toNat ≤ 0xFFFF then "\\u" ++ hex4 c.toNat
  else
    let v := c.toNat - 0x10000
    "\\u" ++ hex4 (0xD800 + v / 1024) ++ "\\u" ++ hex4 (0xDC00 + v % 1024)

/-- `json.dumps` rendering of a string. -/
def dumpString (s : String) : String :=
  "\"" ++ String.join (s.data.map escChar) ++ "\""

/-- `json.dumps` rendering of a number. Integral values print exactly as
Python ints do; non-integral values (never produced by the code paths the
claims cover, whose numbers are the integer constants of the weather mock)
are given a best-effort rendering. -/
def dumpNum (q : ℚ) : String :=
  if q.den = 1 then toString q.num else toString q

mutual

/-- `json.dumps` with its default separators `", "` and `": "`. -/
def jsonDumps : Json → String
  | .null => "null"
  | .bool b => if b then "true" else "false"
  | .num q => dumpNum q
  | .str s => dumpString s
  | .arr l => "[" ++ String.intercalate ", " (dumpsArr l) ++ "]"
  | .obj kvs => "\x7b" ++ String.intercalate ", " (dumpsObj kvs) ++ "\x7d"

/-- Renderings of the elements of a JSON array. -/
def dumpsArr : List Json → List String
  | [] => []
  | x :: xs => jsonDumps x :: dumpsArr xs

/-- Renderings of the key/value pairs of a JSON object. -/
def dumpsObj : List (String × Json) → List String
  | [] => []
  | (k, v) :: xs => (dumpString k ++ ": " ++ jsonDumps v) :: dumpsObj xs

end

/-- Look a key up in a `json.loads`-produced object. Python dicts built by
the JSON decoder keep the LAST occurrence of a duplicated key, hence
`getLast?` over the matching pairs. -/
def jLookup (kvs : List (String × Json)) (k : String) : Option Json :=
  ((kvs.filter (fun kv => kv.1 == k)).getLast?).map Prod.snd

/-- The Python type name of a `Json` value (used only to reproduce the shape
of Python's `AttributeError`/`TypeError` messages; `num` is reported as
`int`, which is what the integer scores in the claims decode to). -/
def pyTypeName : Json → String
  | .null => "NoneType"
  | .bool _ => "bool"
  | .num _ => "int"
  | .str _ => "str"
  | .arr _ => "list"
  | .obj _ => "dict"

/-! ## `get_weather` (src/function_app.py lines 196-218)

The tracing-span and logging statements are observability-only and are not
modelled. `get_weather` in the source annotates `location`/`unit` as `str`,
but Python does not enforce the annotation when the dict from
`json.loads(tool_call.function.arguments)` is splatted into it, so the
general value-level version `get_weather_val` takes arbitrary `Json` values;
`get_weather` is its restriction to strings, matching the annotation. -/

/-- The `mock_weather` dict of `get_weather`, for arbitrary argument
values. -/
def get_weather_val (location : Json) («unit» : Json) : Json :=
  .obj [("location", location),
        ("temperature", .num (if «unit» == Json.str "celsius" then 22 else 72)),
        ("unit", «unit»),
        ("condition", .str "Sunny"),
        ("humidity", .num 65),
        ("wind_speed", .num 10)]

/-- `get_weather(location, unit)` on string arguments, as annotated in the
source. -/
def get_weather (location : String) («unit» : String := "celsius") : Json :=
  get_weather_val (.str location) (.str «unit»)

/-! ## Chat data model -/

/-- The `function` part of a model-emitted tool call: a name and the raw
(still unparsed) JSON argument string. -/
structure ToolFunctionCall where
  name : String
  arguments : String
  deriving Repr, BEq

/-- A tool-call request emitted by the model inside an assistant message. -/
structure ToolCall where
  id : String
  function : ToolFunctionCall
  deriving Repr, BEq

/-- The assistant message object returned by a chat completion call
(`response.choices[0].message`): content may be null, and `tool_calls` is a
possibly empty list (the SDK's `None` and `[]` are both falsy in
`if tool_calls:`, so they are identified here). -/
structure AssistantMsg where
  content : Option String
  tool_calls : List ToolCall := []
  deriving Repr, BEq

/-- One entry of the `messages` history: covers the system/user dicts, the
appended SDK assistant message, and the tool-result dicts. Fields that a
given kind of message does not carry keep their defaults. `content` is
`Json` because a POST body may supply a non-string `message` value, which
the code passes through unchanged. -/
structure ChatMessage where
  role : String
  content : Option Json := none
  tool_call_id : Option String := none
  name : Option String := none
  tool_calls : List ToolCall := []
  deriving Repr, BEq

/-- The appended `response_message` as an element of the history. -/
def assistantToChat (m : AssistantMsg) : ChatMessage :=
  { role := "assistant", content := m.content.map Json.str,
    tool_calls := m.tool_calls }

/-- The arguments of one `client.chat.completions.create` call. `none` for
`tools`/`tool_choice`/`temperature`/`max_tokens` means the keyword was not
passed. -/
structure CreateParams where
  model : String
  messages : List ChatMessage
  tools : Option (List Json) := none
  tool_choice : Option String := none
  temperature : Option ℚ := none
  max_tokens : Option Nat := none
  deriving Repr, BEq

/-- The `weather_tool` schema dict (src/function_app.py lines 222-243). -/
def weather_tool : Json :=
  .obj [("type", .str "function"),
        ("function", .obj
          [("name", .str "get_weather"),
           ("description", .str "Get the current weather for a specific location"),
           ("parameters", .obj
             [("type", .str "object"),
              ("properties", .obj
                [("location", .obj
                   [("type", .str "string"),
                    ("description", .str "The city and state, e.g., San Francisco, CA")]),
                 ("unit", .obj
                   [("type", .str "string"),
                    ("enum", .arr [.str "celsius", .str "fahrenheit"]),
                    ("description", .str "The temperature unit to use")])]),
              ("required", .arr [.str "location"])])])]

/-! ## Environment

All effects outside the file's own logic are drawn from an `Env`:
the outcomes of the chat completion calls, `json.loads` (a fixed stdlib
function, quantified over so every theorem covers the real decoder; a
failed parse carries the `JSONDecodeError` message), `float()` applied to a
string (`strFloat`; `float()` on non-string values is modelled exactly by
`pyFloat` below), `uuid.uuid4().hex`, and `AzureOpenAI(...)` client
construction. Because each chat call of one request happens at most once
(the judge ones keyed by their criterion string), fixed per-call outcomes
are fully general. -/

structure Env where
  /-- `uuid.uuid4().hex` drawn at the top of the handler (32 lowercase hex
  characters at runtime; theorems needing that state it as a hypothesis). -/
  uuidHex : String
  /-- `os.getenv("AZURE_OPENAI_DEPLOYMENT_NAME", "gpt-4")`. -/
  deployment_name : String
  /-- Outcome of constructing the `AzureOpenAI` client. -/
  clientInit : Except String Unit
  /-- `json.loads`: decoded value, or the decode error's message. -/
  loads : String → Except String Json
  /-- `float(s)` for a string `s`: `none` models the `ValueError`. -/
  strFloat : String → Option ℚ
  /-- Outcome of the first chat call (with the tool schema attached):
  the `choices[0].message` object, or the raised error's message. -/
  firstReply : Except String AssistantMsg
  /-- Outcome of the second chat call (tool branch): its
  `choices[0].message.content`, or the raised error's message. -/
  secondContent : Except String (Option String)
  /-- Outcome of the judge chat call for a given criterion: its
  `choices[0].message.content` (possibly null), or the raised error's
  message (which also covers an empty `choices` list raising
  `IndexError` inside the same `try`). -/
  judge : String → Except String (Option String)

/-- `float(x)` for a decoded JSON value `x`, mirroring Python:
numbers pass through, bools coerce to 1/0, strings go through `strFloat`,
and `None`/lists/dicts raise `TypeError` (`none`). -/
def pyFloat (strFloat : String → Option ℚ) : Json → Option ℚ
  | .num q => some q
  | .bool b => some (if b then 1 else 0)
  | .str s => strFloat s
  | .null => none
  | .arr _ => none
  | .obj _ => none

/-- Message of the exception raised by `float(x)` when coercion fails. -/
def floatCoerceMsg : Json → String
  | .str s => "could not convert string to float: '" ++ s ++ "'"
  | j => "float() argument must be a string or a real number, not '" ++
      pyTypeName j ++ "'"

/-- Message of the `AttributeError` raised by `x.get(...)` on a non-dict. -/
def getAttrMsg (j : Json) : String :=
  "'" ++ pyTypeName j ++ "' object has no attribute 'get'"

/-- Message of the `AttributeError` raised by `None.strip()`. -/
def noneStripMsg : String := "'NoneType' object has no attribute 'strip'"

/-! ## `evaluate_with_llm` (src/function_app.py lines 49-159)

The rubric prompt strings (lines 56-117) are pure string formatting consumed
only by the external judge call, which the `Env` already abstracts, so they
are not reproduced. The body of the `try` block is: call the endpoint, take
`choices[0].message.content.strip()`, `json.loads` it, read
`result.get("score", 0.0)` through `float`, read
`result.get("reasoning", "No reasoning provided")`, clamp the score with
`max(0.0, min(1.0, score))`; any exception along the way is caught and
turned into `(0.5, "Evaluation failed: " + str(e))`. The reasoning is a
`Json` because `result["reasoning"]` need not be a string. -/

def evaluate_with_llm (env : Env) (response_id : String) (response_text : String)
    (user_query : Json) (criterion : String) (context : String := "") : ℚ × Json :=
  match env.judge criterion with
  | .error e => (1/2, .str ("Evaluation failed: " ++ e))
  | .ok none => (1/2, .str ("Evaluation failed: " ++ noneStripMsg))
  | .ok (some content) =>
    match env.loads content.trim with
    | .error e => (1/2, .str ("Evaluation failed: " ++ e))
    | .ok (.obj kvs) =>
      let scoreJ := (jLookup kvs "score").getD (.num 0)
      match pyFloat env.strFloat scoreJ with
      | none => (1/2, .str ("Evaluation failed: " ++ floatCoerceMsg scoreJ))
      | some score =>
        let reasoning := (jLookup kvs "reasoning").getD (.str "No reasoning provided")
        (max 0 (min 1 score), reasoning)
    | .ok other => (1/2, .str ("Evaluation failed: " ++ getAttrMsg other))

/-! ## `evaluate_response` (src/function_app.py lines 162-193)

In the source the four scores are only emitted as `log_evaluation` tracing
spans; the model returns the list of `(evaluator_name, score, reasoning)`
triples that are logged, in logging order. The early return when no client
or deployment is provided yields the empty list (nothing is logged). -/

def evaluate_response (env : Env) (response_id : String) (response_text : String)
    (user_query : Json) (context : String := "") (client : Option Unit := none)
    (deployment_name : Option String := none) : List (String × ℚ × Json) :=
  if client.isNone || deployment_name.isNone then []
  else
    let relevance := evaluate_with_llm env response_id response_text user_query "relevance"
    let coherence := evaluate_with_llm env response_id response_text user_query "coherence"
    let groundedness := evaluate_with_llm env response_id response_text user_query "groundedness" context
    let helpfulness := evaluate_with_llm env response_id response_text user_query "helpfulness"
    [("relevance", relevance.1, relevance.2),
     ("coherence", coherence.1, coherence.2),
     ("groundedness", groundedness.1, groundedness.2),
     ("helpfulness", helpfulness.1, helpfulness.2)]

/-! ## HTTP request/response model -/

inductive Method where
  | post : Method
  | get : Method
  deriving Repr, BEq

/-- The inbound request: its method, the outcome of `req.get_json()`
(raises `ValueError` on a non-JSON body), and the query parameters
(`req.params`, string keys and values, keys unique). -/
structure HttpRequest where
  method : Method
  getJson : Except String Json
  params : List (String × String) := []
  deriving Repr

/-- The returned `func.HttpResponse`. The body is kept as the `Json` value
the source passes to `json.dumps`; its wire form is `jsonDumps body`. -/
structure HttpResponse where
  body : Json
  mimetype : String
  status_code : Nat
  deriving Repr, BEq

/-- The 500 error envelope built in the `except` block
(src/function_app.py lines 392-396). -/
def mkErrorResponse (msg : String) : HttpResponse :=
  { body := .obj [("error", .str msg)], mimetype := "application/json",
    status_code := 500 }

/-- The 200 success envelope (src/function_app.py lines 377-385). -/
def mkSuccessResponse (final_message : String) (user_message : Json)
    (response_id : String) : HttpResponse :=
  { body := .obj [("response", .str final_message),
                  ("user_message", user_message),
                  ("response_id", .str response_id)],
    mimetype := "application/json", status_code := 200 }

/-- Step 1 of the handler (src/function_app.py lines 257-261): extract the
user message. POST: `req.get_json()` then `req_body.get('message', ...)`
(an `AttributeError` if the decoded body is not a dict); GET:
`req.params.get('message', ...)`. -/
def extractMessage (req : HttpRequest) : Except String Json :=
  match req.method with
  | .post =>
    match req.getJson with
    | .error e => .error e
    | .ok (.obj kvs) =>
      .ok ((jLookup kvs "message").getD (.str "What is the weather in Dubai?"))
    | .ok other => .error (getAttrMsg other)
  | .get =>
    .ok (.str ((req.params.lookup "message").getD "What is the weather in Dubai?"))

/-- `get_weather(**function_args)`: splatting the decoded argument dict into
`get_weather(location, unit="celsius")`. Raises (`.error`) when the decoded
value is not a dict, carries an unexpected keyword, or misses `location`;
otherwise yields the `location` and `unit` argument values. -/
def splatWeatherArgs : Json → Except String (Json × Json)
  | .obj kvs =>
    if kvs.any (fun kv => kv.1 != "location" && kv.1 != "unit") then
      .error "get_weather() got an unexpected keyword argument"
    else
      match jLookup kvs "location" with
      | none => .error "get_weather() missing 1 required positional argument: 'location'"
      | some loc => .ok (loc, (jLookup kvs "unit").getD (.str "celsius"))
  | other =>
    .error ("FunctionApp.weather_chat() argument after ** must be a mapping, not " ++
      pyTypeName other)

/-- The `for tool_call in tool_calls:` loop (src/function_app.py lines
316-333), threading the history and `weather_context` through the
iterations. Returns the `(location, unit)` argument pairs of the
`get_weather` invocations performed before any raise (first component) and
either the raised message or the final `(messages, weather_context)`.
`json.loads(tool_call.function.arguments)` runs BEFORE the name check, so a
bad argument string raises even for an unrecognized tool name. -/
def processToolCalls (loads : String → Except String Json) :
    List ToolCall → List ChatMessage → String →
    List (Json × Json) × Except String (List ChatMessage × String)
  | [], messages, weather_context => ([], .ok (messages, weather_context))
  | tool_call :: rest, messages, weather_context =>
    match loads tool_call.function.arguments with
    | .error e => ([], .error e)
    | .ok function_args =>
      if tool_call.function.name == "get_weather" then
        match splatWeatherArgs function_args with
        | .error e => ([], .error e)
        | .ok (loc, u) =>
          let function_response := get_weather_val loc u
          let ctx := jsonDumps function_response
          let toolMsg : ChatMessage :=
            { tool_call_id := some tool_call.id, role := "tool",
              name := some tool_call.function.name,
              content := some (.str ctx) }
          let restResult := processToolCalls loads rest (messages ++ [toolMsg]) ctx
          ((loc, u) :: restResult.1, restResult.2)
      else
        processToolCalls loads rest messages weather_context

/-- Observability record of one handler run: which `get_weather`
invocations happened, the `create` arguments of the second chat call if one
was issued, the final `weather_context` (grounding context) when the run got
far enough to use it, and the logged evaluation triples. -/
structure Trace where
  toolInvocations : List (Json × Json) := []
  secondCall : Option CreateParams := none
  groundingContext : String := ""
  evals : List (String × ℚ × Json) := []

/-- The fixed system prompt (src/function_app.py line 285). -/
def systemPrompt : String :=
  "You are a helpful weather assistant. Use the get_weather function to fetch weather information."

/-- Message of `len(None)`'s `TypeError` (src/function_app.py line 355,
reached when the second call's content is null). -/
def noneLenMsg : String := "object of type 'NoneType' has no len()"

/-- The HTTP handler `weather_chat` (src/function_app.py lines 246-396).
Every failure path lands in the `except` block and yields
`mkErrorResponse` with the exception's message; the trace records what had
observably happened by then. Python's string slice `[:12]` is modelled as
`List.take 12` on the characters. -/
def weather_chat (env : Env) (req : HttpRequest) : HttpResponse × Trace :=
  let response_id := "resp_" ++ String.mk (env.uuidHex.data.take 12)
  match extractMessage req with
  | .error e => (mkErrorResponse e, {})
  | .ok user_message =>
    match env.clientInit with
    | .error e => (mkErrorResponse e, {})
    | .ok _ =>
      let messages : List ChatMessage :=
        [{ role := "system", content := some (.str systemPrompt) },
         { role := "user", content := some user_message }]
      match env.firstReply with
      | .error e => (mkErrorResponse e, {})
      | .ok response_message =>
        if response_message.tool_calls.isEmpty then
          -- no tool call needed (line 361): content or ""
          let final_message := response_message.content.getD ""
          let evals :=
            if final_message != "" then
              evaluate_response env response_id final_message user_message ""
                (some ()) (some env.deployment_name)
            else []
          (mkSuccessResponse final_message user_message response_id,
           { evals := evals })
        else
          let messages := messages ++ [assistantToChat response_message]
          let loopOut := processToolCalls env.loads response_message.tool_calls messages ""
          match loopOut.2 with
          | .error e => (mkErrorResponse e, { toolInvocations := loopOut.1 })
          | .ok (messages, weather_context) =>
            let secondParams : CreateParams :=
              { model := env.deployment_name, messages := messages }
            let tr : Trace :=
              { toolInvocations := loopOut.1, secondCall := some secondParams,
                groundingContext := weather_context }
            match env.secondContent with
            | .error e => (mkErrorResponse e, tr)
            | .ok none =>
              -- final_span.set_attribute("response.content_length", len(final_message))
              -- raises TypeError on a null content; there is no `or ""` on this path.
              (mkErrorResponse noneLenMsg, tr)
            | .ok (some final_message) =>
              let evals :=
                if final_message != "" then
                  evaluate_response env response_id final_message user_message
                    weather_context (some ()) (some env.deployment_name)
                else []
              (mkSuccessResponse final_message user_message response_id,
               { tr with evals := evals })

/-! ## Field access helpers and concrete demonstration inputs -/

/-- The key/value pairs of a JSON object (empty for non-objects). -/
def objFields : Json → List (String × Json)
  | .obj kvs => kvs
  | _ => []

/-- Lowercase hexadecimal digit, the alphabet of `uuid.uuid4().hex`. -/
def isLowerHexDigit (c : Char) : Bool :=
  c.isDigit || ('a' ≤ c && c ≤ 'f')

/-- A concrete stand-in for `json.loads` used by witnesses: decodes the one
argument string the demonstrations use and fails on everything else with
the message `json.loads("not json")` raises. -/
def loadsDemo : String → Except String Json := fun s =>
  if s = "\x7b\"location\": \"Paris\", \"unit\": \"fahrenheit\"\x7d" then
    .ok (.obj [("location", .str "Paris"), ("unit", .str "fahrenheit")])
  else .error "Expecting value: line 1 column 1 (char 0)"

/-- A baseline environment for concrete runs: client construction succeeds,
the first reply is a plain text answer, and every judge call raises. -/
def baseEnv : Env :=
  { uuidHex := "0123456789abcdef0123456789abcdef",
    deployment_name := "gpt-4",
    clientInit := .ok (),
    loads := loadsDemo,
    strFloat := fun _ => none,
    firstReply := .ok { content := some "Hello" },
    secondContent := .ok (some "It is sunny."),
    judge := fun _ => .error "boom" }

/-- A GET request carrying no `message` parameter. -/
def reqGetNoMsg : HttpRequest := { method := .get, getJson := .error "No JSON" }

/-- A model-emitted request for `get_weather` with Paris/fahrenheit
arguments. -/
def tcParis : ToolCall :=
  { id := "call_1",
    function := { name := "get_weather",
                  arguments := "\x7b\"location\": \"Paris\", \"unit\": \"fahrenheit\"\x7d" } }

/-- Environment whose first reply requests the Paris/fahrenheit tool call. -/
def envParis : Env :=
  { baseEnv with firstReply := .ok { content := none, tool_calls := [tcParis] } }

/-- Environment where the tool round trip happens but the second call's
reply content is null. -/
def envNullSecond : Env := { envParis with secondContent := .ok none }

/-- A model-emitted request for an unrecognized tool whose argument string
is not valid JSON. -/
def tcBadTool : ToolCall :=
  { id := "call_9", function := { name := "other_tool", arguments := "not json" } }

/-- Environment whose first reply requests only the unrecognized tool. -/
def envBadTool : Env :=
  { baseEnv with firstReply := .ok { content := none, tool_calls := [tcBadTool] } }

/-- A model-emitted request for an unrecognized tool whose argument string
is valid JSON. -/
def tcOtherValid : ToolCall :=
  { id := "call_0",
    function := { name := "other_tool",
                  arguments := "\x7b\"location\": \"Paris\", \"unit\": \"fahrenheit\"\x7d" } }

/-- The weather record for Paris in fahrenheit, in the dict order the
source builds it. -/
def parisRecord : Json :=
  .obj [("location", .str "Paris"),
        ("temperature", .num 72),
        ("unit", .str "fahrenheit"),
        ("condition", .str "Sunny"),
        ("humidity", .num 65),
        ("wind_speed", .num 10)]

/-- A POST request whose JSON body is an object without a `message` field. -/
def reqPostNoMsg : HttpRequest := { method := .post, getJson := .ok (.obj []) }

/-- A POST request whose body fails to decode. -/
def reqPostBadBody : HttpRequest := { method := .post, getJson := .error "boom" }

end FunctionApp

namespace FunctionApp

/-! ## Claim theorems -/

/-- Unfolding rule for the derived `BEq` on string atoms. -/
@[simp] theorem str_beq_str (a b : String) : (Json.str a == Json.str b) = (a == b) := by
  rfl

/-- C2: for every location string `X`, `get_weather(X, "celsius")` has
temperature 22 and `get_weather(X, "fahrenheit")` has temperature 72; for
every unit `u` the condition is "Sunny", humidity 65, wind_speed 10, the
location field echoes `X` and the unit field echoes `u`; and all fields
other than the echoed location are independent of `X`. -/
theorem get_weather_constant_fields (X u : String) :
    jLookup (objFields (get_weather X "celsius")) "temperature" = some (.num 22) ∧
    jLookup (objFields (get_weather X "fahrenheit")) "temperature" = some (.num 72) ∧
    jLookup (objFields (get_weather X u)) "condition" = some (.str "Sunny") ∧
    jLookup (objFields (get_weather X u)) "humidity" = some (.num 65) ∧
    jLookup (objFields (get_weather X u)) "wind_speed" = some (.num 10) ∧
    jLookup (objFields (get_weather X u)) "location" = some (.str X) ∧
    jLookup (objFields (get_weather X u)) "unit" = some (.str u) ∧
    ∀ Y : String,
      (objFields (get_weather X u)).filter (fun kv => kv.1 != "location") =
      (objFields (get_weather Y u)).filter (fun kv => kv.1 != "location") := by
  simp [get_weather, get_weather_val, objFields, jLookup]

/-- C10: for every location string and every unit string other than the
exact string "celsius" (including strings outside the documented enum such
as "kelvin" or ""), `get_weather` yields temperature 72 (it cannot raise:
it is a total function of its two inputs), and the celsius value 22 arises
exactly for the string "celsius". -/
theorem get_weather_non_celsius_is_72 (location u : String) (h : u ≠ "celsius") :
    jLookup (objFields (get_weather location u)) "temperature" = some (.num 72) ∧
    (jLookup (objFields (get_weather location u)) "temperature" = some (.num 22) ↔
      u = "celsius") := by
  simp [get_weather, get_weather_val, objFields, jLookup, h]

/-- Witness for C10 at the concrete out-of-enum units "kelvin" and "". -/
theorem get_weather_non_celsius_is_72_witness :
    jLookup (objFields (get_weather "Paris" "kelvin")) "temperature" = some (.num 72) ∧
    jLookup (objFields (get_weather "Paris" "")) "temperature" = some (.num 72) :=
  ⟨(get_weather_non_celsius_is_72 "Paris" "kelvin" (by decide)).1,
   (get_weather_non_celsius_is_72 "Paris" "" (by decide)).1⟩

/-- Score bounds for a single judge evaluation: whatever the call, parse and
coercion outcomes, the returned score is in [0, 1]. -/
theorem evaluate_with_llm_score_bounds (env : Env) (response_id response_text : String)
    (user_query : Json) (criterion context : String) :
    0 ≤ (evaluate_with_llm env response_id response_text user_query criterion context).1 ∧
    (evaluate_with_llm env response_id response_text user_query criterion context).1 ≤ 1 := by
  unfold evaluate_with_llm
  cases hj : env.judge criterion with
  | error e => simp only [hj]; constructor <;> norm_num
  | ok oc =>
    cases oc with
    | none => simp only [hj]; constructor <;> norm_num
    | some content =>
      cases hl : env.loads content.trim with
      | error e => simp only [hl]; constructor <;> norm_num
      | ok j =>
        simp only [hl]
        cases j with
        | obj kvs =>
          cases hf : pyFloat env.strFloat ((jLookup kvs "score").getD (Json.num 0)) with
          | none => simp only [hf]; constructor <;> norm_num
          | some score =>
            simp only [hf]
            exact ⟨le_max_left _ _, max_le (by norm_num) (min_le_left _ _)⟩
        | null => constructor <;> norm_num
        | bool b => constructor <;> norm_num
        | num q => constructor <;> norm_num
        | str s => constructor <;> norm_num
        | arr l => constructor <;> norm_num

/-- C3: for every environment (hence for every combination of success and
failure of the underlying judge calls) and every input, `evaluate_response`
with a client and deployment provided logs exactly 4 results, for the
criteria relevance, coherence, groundedness, helpfulness in that order, and
every logged score lies in [0, 1]. -/
theorem evaluate_response_four_bounded_results (env : Env)
    (response_id response_text : String) (user_query : Json)
    (context : String) (deployment_name : String) :
    (evaluate_response env response_id response_text user_query context
      (some ()) (some deployment_name)).length = 4 ∧
    (evaluate_response env response_id response_text user_query context
      (some ()) (some deployment_name)).map (fun r => r.1) =
      ["relevance", "coherence", "groundedness", "helpfulness"] ∧
    ∀ r ∈ evaluate_response env response_id response_text user_query context
      (some ()) (some deployment_name), 0 ≤ r.2.1 ∧ r.2.1 ≤ 1 := by
  unfold evaluate_response
  simp only [Option.isNone_some, Bool.or_self, Bool.false_eq_true, if_false]
  refine ⟨rfl, rfl, ?_⟩
  intro r hr
  simp only [List.mem_cons, List.not_mem_nil, or_false] at hr
  rcases hr with h | h | h | h <;> subst h <;> dsimp only <;>
    exact evaluate_with_llm_score_bounds _ _ _ _ _ _

/-- C4: a judge call that raises, returns content that is not valid JSON,
or a score field that cannot be coerced to a float yields the neutral
per-criterion result — score 0.5 with a reasoning string beginning
"Evaluation failed:" — the failure is not propagated (`evaluate_with_llm`
is total and returns the fallback pair), and a request whose orchestration
otherwise succeeds still returns HTTP status 200. -/
theorem judge_failures_fall_back_neutral (env : Env)
    (response_id response_text : String) (user_query : Json)
    (criterion context : String) :
    (∀ e, env.judge criterion = .error e →
      evaluate_with_llm env response_id response_text user_query criterion context =
        (1/2, .str ("Evaluation failed: " ++ e))) ∧
    (∀ content e, env.judge criterion = .ok (some content) →
      env.loads content.trim = .error e →
      evaluate_with_llm env response_id response_text user_query criterion context =
        (1/2, .str ("Evaluation failed: " ++ e))) ∧
    (∀ content kvs, env.judge criterion = .ok (some content) →
      env.loads content.trim = .ok (.obj kvs) →
      pyFloat env.strFloat ((jLookup kvs "score").getD (.num 0)) = none →
      (evaluate_with_llm env response_id response_text user_query criterion context).1 = 1/2 ∧
      ∃ s, (evaluate_with_llm env response_id response_text user_query criterion context).2 =
        .str ("Evaluation failed: " ++ s)) ∧
    (∀ (req : HttpRequest) (um : Json) (rm : AssistantMsg),
      extractMessage req = .ok um → env.clientInit = .ok () →
      env.firstReply = .ok rm → rm.tool_calls = [] →
      (weather_chat env req).1.status_code = 200) := by
  refine ⟨?_, ?_, ?_, ?_⟩
  · intro e hj
    unfold evaluate_with_llm
    simp only [hj]
  · intro content e hj hl
    unfold evaluate_with_llm
    simp only [hj, hl]
  · intro content kvs hj hl hf
    refine ⟨?_, floatCoerceMsg ((jLookup kvs "score").getD (.num 0)), ?_⟩ <;>
      (unfold evaluate_with_llm; simp only [hj, hl, hf])
  · intro req um rm hmsg hclient hfirst htc
    unfold weather_chat
    simp only [hmsg, hclient, hfirst, htc]
    rfl

/-- Witness for C4: with every judge call raising "boom", the relevance
evaluation returns the neutral 0.5 score with the diagnostic reasoning, and
a request whose orchestration succeeds still gets HTTP 200. -/
theorem judge_failures_fall_back_neutral_witness :
    evaluate_with_llm baseEnv "r1" "text" (.str "q") "relevance" "" =
      (1/2, .str ("Evaluation failed: " ++ "boom")) ∧
    (weather_chat baseEnv reqGetNoMsg).1.status_code = 200 :=
  ⟨(judge_failures_fall_back_neutral baseEnv "r1" "text" (.str "q") "relevance" "").1
     "boom" rfl,
   (judge_failures_fall_back_neutral baseEnv "r1" "text" (.str "q") "relevance" "").2.2.2
     reqGetNoMsg (.str "What is the weather in Dubai?")
     { content := some "Hello" } rfl rfl rfl rfl⟩

/-- C6: when the first reply contains zero tool-call requests, the weather
tool is never invoked, no second chat call is issued, the grounding context
is the empty string, and the final answer equals the first reply's content
(the empty string when that content is null), returned with status 200. -/
theorem no_tool_calls_single_call (env : Env) (req : HttpRequest) (um : Json)
    (rm : AssistantMsg)
    (hmsg : extractMessage req = .ok um) (hclient : env.clientInit = .ok ())
    (hfirst : env.firstReply = .ok rm) (htc : rm.tool_calls = []) :
    (weather_chat env req).2.toolInvocations = [] ∧
    (weather_chat env req).2.secondCall = none ∧
    (weather_chat env req).2.groundingContext = "" ∧
    (weather_chat env req).1 =
      mkSuccessResponse (rm.content.getD "") um
        ("resp_" ++ String.mk (env.uuidHex.data.take 12)) := by
  unfold weather_chat
  simp only [hmsg, hclient, hfirst, htc]
  exact ⟨rfl, rfl, rfl, rfl⟩

/-- Witness for C6: a first reply with plain text content and no tool
calls is answered directly. -/
theorem no_tool_calls_single_call_witness :
    (weather_chat baseEnv reqGetNoMsg).2.toolInvocations = [] ∧
    (weather_chat baseEnv reqGetNoMsg).2.secondCall = none ∧
    (weather_chat baseEnv reqGetNoMsg).2.groundingContext = "" ∧
    (weather_chat baseEnv reqGetNoMsg).1 =
      mkSuccessResponse "Hello" (.str "What is the weather in Dubai?")
        "resp_0123456789ab" :=
  no_tool_calls_single_call baseEnv reqGetNoMsg
    (.str "What is the weather in Dubai?") { content := some "Hello" }
    rfl rfl rfl rfl

/-- C1: when the first reply requests `get_weather` with arguments
`{"location": "Paris", "unit": "fahrenheit"}`, the second chat call is
issued with history system, user, assistant (carrying the tool call), then
a tool-role message whose content is the JSON encoding of the Paris
weather record — and attaches no tool schema (`tools` and `tool_choice`
are absent from its parameters). The second conjunct shows that encoding
is the expected serialized record. -/
theorem paris_tool_call_second_history (env : Env) (req : HttpRequest)
    (um : Json) (rm : AssistantMsg) (tc : ToolCall)
    (hmsg : extractMessage req = .ok um) (hclient : env.clientInit = .ok ())
    (hfirst : env.firstReply = .ok rm) (htc : rm.tool_calls = [tc])
    (hname : tc.function.name = "get_weather")
    (hargs : env.loads tc.function.arguments =
      .ok (.obj [("location", .str "Paris"), ("unit", .str "fahrenheit")])) :
    (weather_chat env req).2.secondCall = some
      { model := env.deployment_name,
        messages :=
          [{ role := "system", content := some (.str systemPrompt) },
           { role := "user", content := some um },
           assistantToChat rm,
           { role := "tool", content := some (.str (jsonDumps parisRecord)),
             tool_call_id := some tc.id, name := some "get_weather" }] } ∧
    jsonDumps parisRecord =
      "\x7b\"location\": \"Paris\", \"temperature\": 72, \"unit\": \"fahrenheit\", \"condition\": \"Sunny\", \"humidity\": 65, \"wind_speed\": 10\x7d" := by
  have hloop : processToolCalls env.loads [tc]
      [{ role := "system", content := some (.str systemPrompt) },
       { role := "user", content := some um },
       assistantToChat rm] "" =
      ([(.str "Paris", .str "fahrenheit")],
       .ok ([{ role := "system", content := some (.str systemPrompt) },
             { role := "user", content := some um },
             assistantToChat rm,
             { role := "tool", content := some (.str (jsonDumps parisRecord)),
               tool_call_id := some tc.id, name := some "get_weather" }],
            jsonDumps parisRecord)) := by
    unfold processToolCalls
    simp only [hargs, hname]
    rfl
  constructor
  · unfold weather_chat
    simp only [hmsg, hclient, hfirst, htc, List.cons_append, List.nil_append,
      List.isEmpty_cons, Bool.false_eq_true, if_false, hloop]
    cases env.secondContent with
    | error e => rfl
    | ok oc =>
      cases oc with
      | none => rfl
      | some c => rfl
  · rfl

/-- Witness for C1: a concrete run in which the model requests
`get_weather("Paris", "fahrenheit")`; the second call's history is exactly
system, user, assistant(tool-call), tool(serialized record), with no tool
schema attached. -/
theorem paris_tool_call_second_history_witness :
    (weather_chat envParis reqGetNoMsg).2.secondCall = some
      { model := "gpt-4",
        messages :=
          [{ role := "system", content := some (.str systemPrompt) },
           { role := "user", content := some (.str "What is the weather in Dubai?") },
           { role := "assistant", content := none, tool_calls := [tcParis] },
           { role := "tool",
             content := some (.str
               "\x7b\"location\": \"Paris\", \"temperature\": 72, \"unit\": \"fahrenheit\", \"condition\": \"Sunny\", \"humidity\": 65, \"wind_speed\": 10\x7d"),
             tool_call_id := some "call_1", name := some "get_weather" }] } :=
  (paris_tool_call_second_history envParis reqGetNoMsg
    (.str "What is the weather in Dubai?")
    { content := none, tool_calls := [tcParis] } tcParis
    rfl rfl rfl rfl rfl rfl).1

/-- C5 counterexample: in a run whose first reply requests a tool call and
whose second reply has null content, the handler does NOT return the empty
string with success — `len(final_message)` raises `TypeError` on the null
content (src/function_app.py line 355 has no `or ""`, unlike line 361) and
the request fails with status 500. -/
theorem null_second_content_crashes :
    (weather_chat envNullSecond reqGetNoMsg).1 = mkErrorResponse noneLenMsg ∧
    (weather_chat envNullSecond reqGetNoMsg).1.status_code = 500 := by
  constructor <;> rfl

/-- C5 (amended): whenever the first reply contains at least one tool-call
request and the tool loop completes, the final answer text equals the
second chat call's reply content when that content is non-null; when it is
null, the handler raises `TypeError` on `len(None)` and the request returns
status 500 with that error message (not an empty-string success). -/
theorem second_reply_content_is_final_answer (env : Env) (req : HttpRequest)
    (um : Json) (rm : AssistantMsg) (ms : List ChatMessage) (wc : String)
    (hmsg : extractMessage req = .ok um) (hclient : env.clientInit = .ok ())
    (hfirst : env.firstReply = .ok rm) (htc : rm.tool_calls ≠ [])
    (hloop : (processToolCalls env.loads rm.tool_calls
      [{ role := "system", content := some (.str systemPrompt) },
       { role := "user", content := some um },
       assistantToChat rm] "").2 = .ok (ms, wc)) :
    (∀ c, env.secondContent = .ok (some c) →
      (weather_chat env req).1 =
        mkSuccessResponse c um ("resp_" ++ String.mk (env.uuidHex.data.take 12))) ∧
    (env.secondContent = .ok none →
      (weather_chat env req).1 = mkErrorResponse noneLenMsg) := by
  obtain ⟨tc, rest, hcons⟩ := List.exists_cons_of_ne_nil htc
  rw [hcons] at hloop
  constructor
  · intro c hsc
    unfold weather_chat
    simp only [hmsg, hclient, hfirst, hcons, List.cons_append, List.nil_append,
      List.isEmpty_cons, Bool.false_eq_true, if_false, hloop, hsc]
  · intro hsc
    unfold weather_chat
    simp only [hmsg, hclient, hfirst, hcons, List.cons_append, List.nil_append,
      List.isEmpty_cons, Bool.false_eq_true, if_false, hloop, hsc]

/-- Witness for C5 (amended): the Paris run with second reply "It is
sunny." succeeds with exactly that text; the same run with null second
content returns the 500 TypeError envelope. -/
theorem second_reply_content_is_final_answer_witness :
    (weather_chat envParis reqGetNoMsg).1 =
      mkSuccessResponse "It is sunny." (.str "What is the weather in Dubai?")
        "resp_0123456789ab" ∧
    (weather_chat envNullSecond reqGetNoMsg).1 = mkErrorResponse noneLenMsg :=
  ⟨(second_reply_content_is_final_answer envParis reqGetNoMsg
      (.str "What is the weather in Dubai?")
      { content := none, tool_calls := [tcParis] } _ _
      rfl rfl rfl (List.cons_ne_nil _ _) rfl).1 "It is sunny." rfl,
   (second_reply_content_is_final_answer envNullSecond reqGetNoMsg
      (.str "What is the weather in Dubai?")
      { content := none, tool_calls := [tcParis] } _ _
      rfl rfl rfl (List.cons_ne_nil _ _) rfl).2 rfl⟩

/-- C9 counterexample: an unrecognized tool name is NOT always dropped
without error — `json.loads(tool_call.function.arguments)` runs before the
name check (src/function_app.py line 318), so an unrecognized tool call
carrying the argument string "not json" raises and fails the whole request
with status 500. -/
theorem unrecognized_tool_bad_args_raises :
    (weather_chat envBadTool reqGetNoMsg).1 =
      mkErrorResponse "Expecting value: line 1 column 1 (char 0)" ∧
    (weather_chat envBadTool reqGetNoMsg).1.status_code = 500 := by
  constructor <;> rfl

/-- C9 (amended): a tool-call request whose function name is not
"get_weather" and whose argument string is valid JSON is silently dropped —
the loop continues with the history, grounding context and invocation list
unchanged and raises nothing for it; but when its argument string is not
valid JSON, the decode error propagates and aborts the loop. -/
theorem unrecognized_tool_skipped (loads : String → Except String Json)
    (tc : ToolCall) (rest : List ToolCall) (messages : List ChatMessage)
    (weather_context : String)
    (hname : tc.function.name ≠ "get_weather") :
    (∀ v, loads tc.function.arguments = .ok v →
      processToolCalls loads (tc :: rest) messages weather_context =
        processToolCalls loads rest messages weather_context) ∧
    (∀ e, loads tc.function.arguments = .error e →
      processToolCalls loads (tc :: rest) messages weather_context =
        ([], .error e)) := by
  constructor
  · intro v hv
    conv_lhs => unfold processToolCalls
    simp only [hv, beq_iff_eq, hname, if_false]
  · intro e he
    unfold processToolCalls
    simp only [he]

/-- Witness for C9 (amended): an `other_tool` request with decodable
arguments is skipped outright; one with the argument string "not json"
aborts the loop with the decode error. -/
theorem unrecognized_tool_skipped_witness :
    processToolCalls loadsDemo [tcOtherValid] [] "" =
      processToolCalls loadsDemo [] [] "" ∧
    processToolCalls loadsDemo [tcBadTool] [] "" =
      ([], .error "Expecting value: line 1 column 1 (char 0)") :=
  ⟨(unrecognized_tool_skipped loadsDemo tcOtherValid [] [] "" (by decide)).1
     (.obj [("location", .str "Paris"), ("unit", .str "fahrenheit")]) rfl,
   (unrecognized_tool_skipped loadsDemo tcBadTool [] [] "" (by decide)).2
     "Expecting value: line 1 column 1 (char 0)" rfl⟩

/-- Shape of every handler outcome: either an error envelope, or a success
envelope echoing the extracted message and freshly generated response id. -/
theorem weather_chat_shape (env : Env) (req : HttpRequest) :
    (∃ m, (weather_chat env req).1 = mkErrorResponse m) ∨
    (∃ um fm, extractMessage req = .ok um ∧
      (weather_chat env req).1 =
        mkSuccessResponse fm um ("resp_" ++ String.mk (env.uuidHex.data.take 12))) := by
  unfold weather_chat
  dsimp only
  repeat' split
  all_goals first
    | exact .inl ⟨_, rfl⟩
    | exact .inr ⟨_, _, by assumption, rfl⟩

/-- C7: a request without a `message` field (POST body object lacking the
key, or GET query lacking the parameter) uses exactly
"What is the weather in Dubai?"; on success the envelope's `user_message`
echoes it and `response_id` is "resp_" followed by 12 lowercase hex
characters (given that `uuid.uuid4().hex` is 32 lowercase hex
characters). -/
theorem missing_message_defaults (env : Env) (req : HttpRequest)
    (hmiss : (req.method = .post ∧ ∃ kvs, req.getJson = .ok (.obj kvs) ∧
        jLookup kvs "message" = none) ∨
      (req.method = .get ∧ req.params.lookup "message" = none))
    (hhex : env.uuidHex.data.length = 32 ∧ env.uuidHex.data.all isLowerHexDigit)
    (hok : (weather_chat env req).1.status_code = 200) :
    extractMessage req = .ok (.str "What is the weather in Dubai?") ∧
    ∃ fm hx, (weather_chat env req).1.body =
      .obj [("response", .str fm),
            ("user_message", .str "What is the weather in Dubai?"),
            ("response_id", .str ("resp_" ++ hx))] ∧
      hx.data.length = 12 ∧ hx.data.all isLowerHexDigit := by
  have hmsg : extractMessage req = .ok (.str "What is the weather in Dubai?") := by
    rcases hmiss with ⟨hm, kvs, hj, hl⟩ | ⟨hm, hl⟩
    · unfold extractMessage
      rw [hm, hj]
      simp only [hl, Option.getD_none]
    · unfold extractMessage
      rw [hm]
      simp only [hl, Option.getD_none]
  refine ⟨hmsg, ?_⟩
  rcases weather_chat_shape env req with ⟨m, herr⟩ | ⟨um, fm, hum, hsucc⟩
  · rw [herr] at hok
    exact absurd hok (by simp [mkErrorResponse])
  · rw [hum] at hmsg
    injection hmsg with hmsg
    subst hmsg
    refine ⟨fm, String.mk (env.uuidHex.data.take 12), ?_, ?_, ?_⟩
    · rw [hsucc]; rfl
    · show (List.take 12 env.uuidHex.data).length = 12
      rw [List.length_take, hhex.1]
      decide
    · rw [List.all_eq_true] at hhex ⊢
      intro x hx
      exact hhex.2 x (List.mem_of_mem_take hx)

/-- Witness for C7: a GET request with no `message` parameter in a
successful run. -/
theorem missing_message_defaults_witness :
    extractMessage reqGetNoMsg = .ok (.str "What is the weather in Dubai?") ∧
    ∃ fm hx, (weather_chat baseEnv reqGetNoMsg).1.body =
      .obj [("response", .str fm),
            ("user_message", .str "What is the weather in Dubai?"),
            ("response_id", .str ("resp_" ++ hx))] ∧
      hx.data.length = 12 ∧ hx.data.all isLowerHexDigit :=
  missing_message_defaults baseEnv reqGetNoMsg (Or.inr ⟨rfl, rfl⟩) ⟨rfl, rfl⟩ rfl

/-- C8: every exception raised during parsing, orchestration or evaluation
yields status 500 with body exactly the one-key object
`\x7b"error": <message>\x7d` (in particular no `response`, `user_message`
or `response_id` key), and the raised message is propagated verbatim —
shown for the parse, client-construction and first-call failure points. -/
theorem exceptions_give_500_error_envelope (env : Env) (req : HttpRequest) :
    ((weather_chat env req).1.status_code ≠ 200 →
      ∃ m, (weather_chat env req).1 = mkErrorResponse m) ∧
    (∀ e, extractMessage req = .error e →
      (weather_chat env req).1 = mkErrorResponse e) ∧
    (∀ um e, extractMessage req = .ok um → env.clientInit = .error e →
      (weather_chat env req).1 = mkErrorResponse e) ∧
    (∀ um e, extractMessage req = .ok um → env.clientInit = .ok () →
      env.firstReply = .error e →
      (weather_chat env req).1 = mkErrorResponse e) := by
  refine ⟨?_, ?_, ?_, ?_⟩
  · intro hne
    rcases weather_chat_shape env req with ⟨m, herr⟩ | ⟨um, fm, _, hsucc⟩
    · exact ⟨m, herr⟩
    · rw [hsucc] at hne
      exact absurd rfl hne
  · intro e he
    unfold weather_chat
    simp only [he]
  · intro um e hm hc
    unfold weather_chat
    simp only [hm, hc]
  · intro um e hm hc hf
    unfold weather_chat
    simp only [hm, hc, hf]

/-- Witness for C8: a POST whose body fails to decode with message "boom"
returns exactly the 500 envelope carrying "boom". -/
theorem exceptions_give_500_error_envelope_witness :
    (weather_chat baseEnv reqPostBadBody).1 = mkErrorResponse "boom" :=
  (exceptions_give_500_error_envelope baseEnv reqPostBadBody).2.1 "boom" rfl

end FunctionApp
